import Mathlib

/-
Verification of the micro_http response serializer
(src/micro_http/src/response.rs) against its specification.

The source file imports three sibling modules that are not part of the
given sources: `ascii` (the byte constants CR, LF, SP), `common`
(`Body`, `Version`) and `headers` (`Header`, `Headers`, `MediaType`).
Those collaborators are modelled from the spec (sections 2, 3, 4.3, 6);
everything else is translated directly from response.rs.

Bytes are modelled as `List Nat`; all data involved is ASCII text, so a
string's byte form is the list of its characters' code points.
-/

namespace MicroHttp

/-- Modelled from the spec: the `ascii` module's carriage-return byte. -/
def CR : Nat := 13

/-- Modelled from the spec: the `ascii` module's line-feed byte. -/
def LF : Nat := 10

/-- Modelled from the spec: the `ascii` module's space byte. -/
def SP : Nat := 32

/-- Byte form of an ASCII string: the code points of its characters. -/
def strBytes (s : String) : List Nat :=
  s.data.map Char.toNat

/-- Modelled from the spec: `common::Version`, a fixed enumeration whose
only listed member is HTTP/1.0; it carries its own byte representation. -/
inductive Version where
  | Http10
deriving DecidableEq

/-- Modelled from the spec: the version's byte sequence is fixed to the
literal representation of "HTTP/1.0". -/
def Version.raw : Version → List Nat
  | .Http10 => strBytes "HTTP/1.0"

/-- Modelled from the spec: `headers::Header`, a closed enumeration of the
recognized header names ContentLength and ContentType. -/
inductive Header where
  | ContentLength
  | ContentType
deriving DecidableEq

/-- Modelled from the spec: the wire name of each header, as it appears in
the header lines of section 8's expected output. -/
def Header.nameStr : Header → String
  | .ContentLength => "Content-Length"
  | .ContentType => "Content-Type"

/-- Modelled from the spec: `headers::MediaType`, a closed enumeration with
member PlainText mapping to the fixed MIME string "text/plain". -/
inductive MediaType where
  | PlainText
deriving DecidableEq

/-- Modelled from the spec: the fixed MIME string of each media type. -/
def MediaType.as_str : MediaType → String
  | .PlainText => "text/plain"

/-- Modelled from the spec: `headers::Headers`, a collection of
name/value pairs.  The output order is implementation-defined; this model
preserves insertion order. -/
abbrev Headers : Type := List (Header × String)

/-- Modelled from the spec: `Headers::default()` is the empty collection. -/
def Headers.default : Headers := ([] : List (Header × String))

/-- Modelled from the spec: `add(header_name, value)` appends an entry;
duplicate suppression is not performed. -/
def Headers.add (hs : Headers) (h : Header) (v : String) : Headers :=
  hs ++ [(h, v)]

/-- Modelled from the spec: `Headers::raw()` serializes each entry as
`Name: value CR LF` and terminates the block with one blank CR LF line. -/
def Headers.raw (hs : Headers) : List Nat :=
  (hs.map (fun e => strBytes (e.1.nameStr ++ ": " ++ e.2) ++ [CR, LF])).flatten
    ++ [CR, LF]

/-- Modelled from the spec: `common::Body`, owning a byte-serializable
payload originating as text; exposes its length and raw byte form. -/
structure Body where
  payload : List Nat
deriving DecidableEq

/-- Modelled from the spec: a body built from text owns its byte form. -/
def Body.new (t : String) : Body :=
  ⟨strBytes t⟩

/-- Modelled from the spec: `Body::len()` is the byte length. -/
def Body.len (b : Body) : Nat :=
  b.payload.length

/-- Modelled from the spec: `Body::raw()` is the raw byte form. -/
def Body.raw (b : Body) : List Nat :=
  b.payload

/-- The `StatusCode` enumeration of response.rs. -/
inductive StatusCode where
  | OK
  | BadRequest
  | NotFound
  | InternalServerError
  | NotImplemented
deriving DecidableEq, Fintype

/-- `StatusCode::raw()` of response.rs: the fixed three-digit ASCII code
of each variant. -/
def StatusCode.raw : StatusCode → List Nat
  | .OK => strBytes "200"
  | .BadRequest => strBytes "400"
  | .NotFound => strBytes "404"
  | .InternalServerError => strBytes "500"
  | .NotImplemented => strBytes "501"

/-- The `StatusLine` struct of response.rs. -/
structure StatusLine where
  http_version : Version
  status_code : StatusCode
deriving DecidableEq

/-- `StatusLine::new` of response.rs: binds version HTTP/1.0 to the given
status code. -/
def StatusLine.new (status_code : StatusCode) : StatusLine :=
  ⟨Version.Http10, status_code⟩

/-- `StatusLine::raw()` of response.rs:
`[http_version, [SP], status_code, [SP, CR, LF]].concat()`. -/
def StatusLine.raw (s : StatusLine) : List Nat :=
  s.http_version.raw ++ [SP] ++ s.status_code.raw ++ [SP, CR, LF]

/-- The `Response` struct of response.rs. -/
structure Response where
  status_line : StatusLine
  headers : Headers
  body : Option Body
deriving DecidableEq

/-- `Response::new` of response.rs: a fresh status line, default (empty)
headers, and no body. -/
def Response.new (status_code : StatusCode) : Response :=
  ⟨StatusLine.new status_code, Headers.default, none⟩

/-- `Response::set_body` of response.rs: adds a Content-Length header
whose value is the body length's decimal string, adds a Content-Type
header with the PlainText MIME string, and stores the body.  The Rust
method mutates `self`; the model returns the updated response. -/
def Response.set_body (r : Response) (b : Body) : Response :=
  { r with
    headers :=
      (r.headers.add Header.ContentLength (Nat.repr b.len)).add
        Header.ContentType MediaType.PlainText.as_str,
    body := some b }

/-- `Response::body_raw` of response.rs: the stored body's bytes, or the
empty byte sequence when no body is present. -/
def Response.body_raw (r : Response) : List Nat :=
  match r.body with
  | some body => body.raw
  | none => []

/-- `Response::raw()` of response.rs:
`[status_line, headers, body].concat()`. -/
def Response.raw (r : Response) : List Nat :=
  r.status_line.raw ++ r.headers.raw ++ r.body_raw

/-- `Response::status()` of response.rs. -/
def Response.status (r : Response) : StatusCode :=
  r.status_line.status_code

/-- `Response::raw()` takes `&self`, a shared borrow: a call returns the
bytes and leaves the receiver unchanged.  This models one call as a pair
of the produced bytes and the post-call state. -/
def Response.rawStep (r : Response) : List Nat × Response :=
  (r.raw, r)

/-- The response built in the source's `test_raw` test: status OK, body
"This is a test". -/
def testResponse : Response :=
  (Response.new StatusCode.OK).set_body (Body.new "This is a test")

/-- Claim C1: for every Response, with or without a body, `raw()` returns
exactly the concatenation, in this fixed order, of the status line's raw
bytes, then the headers' raw bytes, then the body bytes if a body is
present or the empty byte sequence otherwise. -/
theorem Response.raw_is_fixed_order_concat (r : Response) :
    r.raw = r.status_line.raw ++ r.headers.raw ++
      (match r.body with
       | some b => b.raw
       | none => []) := rfl

/-- Claim C2 as stated is false: the body "This is a test" is 14 bytes
long, so the test response's raw bytes equal neither claimed
serialization carrying a Content-Length value of "15", in either header
order. -/
theorem testResponse_raw_ne_content_length_15 :
    testResponse.raw ≠ strBytes
      "HTTP/1.0 200 \r\nContent-Length: 15\r\nContent-Type: text/plain\r\n\r\nThis is a test" ∧
    testResponse.raw ≠ strBytes
      "HTTP/1.0 200 \r\nContent-Type: text/plain\r\nContent-Length: 15\r\n\r\nThis is a test" := by
  decide

/-- Claim C2 amended: for the OK response with body "This is a test",
`raw()` is the status line, then a header block with exactly one
Content-Length line of value "14" and one Content-Type line of value
"text/plain" terminated by a blank line, then the literal body bytes with
no extra separator (the model emits Content-Length first, one of the two
permitted orders). -/
theorem testResponse_raw_bytes :
    testResponse.raw = strBytes
      "HTTP/1.0 200 \r\nContent-Length: 14\r\nContent-Type: text/plain\r\n\r\nThis is a test" := by
  decide

/-- Claim C3: the status line for StatusCode OK serializes to exactly
"HTTP/1.0 200 \r\n" — version bytes, one space, the 3-digit code, one
trailing space for the empty reason phrase, then CR LF. -/
theorem statusLine_ok_raw :
    (StatusLine.new StatusCode.OK).raw = strBytes "HTTP/1.0 200 \r\n" := by
  decide

/-- Claim C4: after `set_body b` the headers have gained a Content-Length
entry valued at the decimal string of b's byte length and a Content-Type
entry valued "text/plain", the stored body is b, and `body()` returns a
value whose raw bytes equal b's raw bytes; there is no error path. -/
theorem set_body_adds_headers_and_stores_body (r : Response) (b : Body) :
    (r.set_body b).headers = r.headers ++
      [(Header.ContentLength, Nat.repr b.len),
       (Header.ContentType, MediaType.PlainText.as_str)] ∧
    (r.set_body b).body = some b ∧
    Option.map Body.raw (r.set_body b).body = some b.raw := by
  refine ⟨?_, rfl, rfl⟩
  simp [Response.set_body, Headers.add]

/-- Claim C5: for every StatusCode variant, `raw()` returns a 3-byte
ASCII decimal string per the fixed mapping OK 200, BadRequest 400,
NotFound 404, InternalServerError 500, NotImplemented 501; the mapping is
total over the enumeration. -/
theorem statusCode_raw_mapping :
    (∀ c : StatusCode, c.raw.length = 3 ∧ ∀ d ∈ c.raw, 48 ≤ d ∧ d ≤ 57) ∧
    StatusCode.OK.raw = strBytes "200" ∧
    StatusCode.BadRequest.raw = strBytes "400" ∧
    StatusCode.NotFound.raw = strBytes "404" ∧
    StatusCode.InternalServerError.raw = strBytes "500" ∧
    StatusCode.NotImplemented.raw = strBytes "501" := by
  decide

/-- Claim C6: a Response fresh from `new` serializes to the status line
followed by the empty header block, which is just the blank-line
terminator CR LF, and zero body bytes; its headers contain no entry at
all, in particular no Content-Length and no Content-Type. -/
theorem new_response_serializes_without_body (c : StatusCode) :
    (Response.new c).raw = (StatusLine.new c).raw ++ [CR, LF] ∧
    Headers.raw (Response.new c).headers = [CR, LF] ∧
    (Response.new c).body_raw = [] ∧
    (Response.new c).headers = [] := by
  cases c <;> exact ⟨by decide, rfl, rfl, rfl⟩

/-- Claim C7: `raw()` takes the response by shared borrow, so one call
leaves the response unchanged, and a second call without intervening
mutation produces byte-identical output. -/
theorem raw_is_pure_and_deterministic (r : Response) :
    r.rawStep.2 = r ∧ r.rawStep.2.rawStep.1 = r.rawStep.1 :=
  ⟨rfl, rfl⟩

/-- Claim C8: after any sequence of `set_body` calls on a Response built
by `new c`, `status()` still returns exactly c; `set_body` leaves the
status line unchanged. -/
theorem status_fixed_at_construction (c : StatusCode) (bs : List Body) :
    (bs.foldl Response.set_body (Response.new c)).status = c ∧
    ∀ r : Response, ∀ b : Body, (r.set_body b).status_line = r.status_line := by
  refine ⟨?_, fun r b => rfl⟩
  have h : ∀ r : Response, (bs.foldl Response.set_body r).status_line = r.status_line := by
    induction bs with
    | nil => intro r; rfl
    | cons b tl ih => intro r; simpa using ih (r.set_body b)
  unfold Response.status
  rw [h]
  rfl

/-- Claim C9: two successive `set_body` calls append the Content-Length
and Content-Type headers twice without removing the earlier pair, so a
fresh response holds exactly two Content-Length entries valued at the two
body lengths in call order and two Content-Type entries; the stored body
is the most recently set one. -/
theorem set_body_twice_duplicates_headers (r : Response) (b1 b2 : Body) :
    ((r.set_body b1).set_body b2).headers = r.headers ++
      [(Header.ContentLength, Nat.repr b1.len),
       (Header.ContentType, MediaType.PlainText.as_str),
       (Header.ContentLength, Nat.repr b2.len),
       (Header.ContentType, MediaType.PlainText.as_str)] ∧
    ((r.set_body b1).set_body b2).body = some b2 ∧
    ∀ c : StatusCode,
      ((((Response.new c).set_body b1).set_body b2).headers.filter
          (fun e => e.1 == Header.ContentLength)).map Prod.snd
        = [Nat.repr b1.len, Nat.repr b2.len] ∧
      ((((Response.new c).set_body b1).set_body b2).headers.filter
          (fun e => e.1 == Header.ContentType)).map Prod.snd
        = [MediaType.PlainText.as_str, MediaType.PlainText.as_str] := by
  refine ⟨?_, rfl, fun c => ⟨rfl, rfl⟩⟩
  simp [Response.set_body, Headers.add]

/-- Claim C10: every operation of the core is total over its input
domain: each returns a value governed by an unconditional equation, with
no error path and no fallible branch. -/
theorem core_operations_total (c : StatusCode) (r : Response) (b : Body) :
    (c.raw = strBytes "200" ∨ c.raw = strBytes "400" ∨ c.raw = strBytes "404" ∨
      c.raw = strBytes "500" ∨ c.raw = strBytes "501") ∧
    (StatusLine.new c).raw = Version.Http10.raw ++ [SP] ++ c.raw ++ [SP, CR, LF] ∧
    (Response.new c).body = none ∧
    (Response.new c).headers = Headers.default ∧
    (r.set_body b).body = some b ∧
    r.raw = r.status_line.raw ++ r.headers.raw ++ r.body_raw ∧
    (Response.new c).body_raw = [] ∧
    (r.set_body b).body_raw = b.raw ∧
    r.status = r.status_line.status_code := by
  refine ⟨?_, rfl, rfl, rfl, rfl, rfl, rfl, rfl, rfl⟩
  cases c <;> decide

end MicroHttp
